import Mathlib

/-!
Shallow embedding of the SongDNA audio-similarity pipeline
(`audio_fingerprint.py`, `similarity_engine.py`, `app.py`).

Numeric conventions.  Python floats are modelled as exact rationals wherever
the code performs only field arithmetic, and as real numbers where a square
root is taken (cosine distance, Pearson correlation, standardisation).  The
IEEE `0/0 = NaN` values the code can produce (scipy cosine distance between
two zero vectors, `np.corrcoef` of a constant or NaN vector; the module
suppresses the accompanying warnings via `warnings.filterwarnings('ignore')`,
so no exception is raised there) are modelled explicitly by the `PVal` type.
Python's `max(0, x)` evaluates to `0` when `x` is NaN, because the comparison
`x > 0` is false and `max` keeps its first argument; `pyMax0` reproduces that.
Fingerprints are open Python dicts in the source; they are modelled as a
record of `Option` fields, `none` meaning "key absent".
-/

-- ===== basic list arithmetic =====

/-- Dot product of two rational vectors (`np.dot` on equal-length arrays;
trailing elements of the longer list are ignored, which never happens in the
modelled call sites). -/
def dotQ (u v : List ℚ) : ℚ := (List.zipWith (fun a b => a * b) u v).sum

/-- Sum of squares `np.dot(u, u)`. -/
def sumSq (u : List ℚ) : ℚ := dotQ u u

/-- Pointwise ternary zip, used for `(x - mean) / scale`. -/
def zipWith3 (f : α → β → γ → δ) : List α → List β → List γ → List δ
  | a :: l1, b :: l2, c :: l3 => f a b c :: zipWith3 f l1 l2 l3
  | _, _, _ => []

/-- Dot product over the reals (FAISS inner product). -/
def dotR (u v : List ℝ) : ℝ := (List.zipWith (fun a b => a * b) u v).sum

-- ===== IEEE NaN bookkeeping =====

/-- A Python float that is either NaN or an actual real value. -/
inductive PVal where
  | nan : PVal
  | val : ℝ → PVal

/-- `1 - x` on a possibly-NaN float (`mfcc_sim = 1 - cosine(...)`). -/
def pySubOne : PVal → PVal
  | .nan => .nan
  | .val x => .val (1 - x)

/-- Python `max(0, x)`.  `max` starts from its first argument `0` and replaces
it only when `x > 0` holds; `NaN > 0` is false, so `max(0, NaN) = 0`. -/
noncomputable def pyMax0 : PVal → ℝ
  | .nan => 0
  | .val x => max 0 x

/-- `scipy.spatial.distance.cosine u v = 1 - u.v / sqrt((u.u) * (v.v))`.
For a zero vector the float quotient is `0/0 = NaN` (scipy's final
clip/abs of the distance keeps NaN and is an exact no-op on the value branch
by Cauchy-Schwarz, so it is not written out). -/
noncomputable def scipyCosine (u v : List ℚ) : PVal :=
  if sumSq u * sumSq v = 0 then .nan
  else .val (1 - (dotQ u v : ℝ) / Real.sqrt ((sumSq u * sumSq v : ℚ) : ℝ))

-- ===== Fingerprint data model =====

/-- The fingerprint dict produced by `AudioFingerprinter.extract_fingerprint`
(`n_mfcc = 13` default).  Every field is optional because the source treats
fingerprints as open dicts with `.get` defaults.  The source field
`harmonic_percussive_ratio` is named `harmonic_percussive_rat` here. -/
structure Fingerprint where
  mfcc : Option (List ℚ)
  mfcc_std : Option (List ℚ)
  chroma : Option (List ℚ)
  chroma_std : Option (List ℚ)
  spectral_centroids : Option ℚ
  spectral_centroids_std : Option ℚ
  spectral_rolloff : Option ℚ
  spectral_rolloff_std : Option ℚ
  zero_crossing_rate : Option ℚ
  zero_crossing_rate_std : Option ℚ
  spectral_bandwidth : Option ℚ
  spectral_bandwidth_std : Option ℚ
  tempo : Option ℚ
  onset_strength : Option ℚ
  onset_strength_std : Option ℚ
  harmonic_energy : Option ℚ
  percussive_energy : Option ℚ
  harmonic_percussive_rat : Option ℚ
  key : Option String
  rms_energy : Option ℚ
  rms_energy_std : Option ℚ
  dynamic_range : Option ℚ
  mel_spectral_mean : Option ℚ
  mel_spectral_std : Option ℚ
  spectral_contrast : Option (List ℚ)
  spectral_contrast_std : Option (List ℚ)
  tonnetz : Option (List ℚ)
  tonnetz_std : Option (List ℚ)
  energy : Option ℚ
  deriving DecidableEq

/-- The fingerprint dict with no keys at all (an empty Python dict). -/
def noneFingerprint : Fingerprint :=
  { mfcc := none, mfcc_std := none, chroma := none, chroma_std := none
    spectral_centroids := none, spectral_centroids_std := none
    spectral_rolloff := none, spectral_rolloff_std := none
    zero_crossing_rate := none, zero_crossing_rate_std := none
    spectral_bandwidth := none, spectral_bandwidth_std := none
    tempo := none, onset_strength := none, onset_strength_std := none
    harmonic_energy := none, percussive_energy := none
    harmonic_percussive_rat := none, key := none
    rms_energy := none, rms_energy_std := none, dynamic_range := none
    mel_spectral_mean := none, mel_spectral_std := none
    spectral_contrast := none, spectral_contrast_std := none
    tonnetz := none, tonnetz_std := none, energy := none }

/-- `AudioFingerprinter._get_empty_fingerprint`: every documented key present,
arrays of declared lengths filled with zeros, `key = "Unknown"`. -/
def emptyFingerprint : Fingerprint :=
  { mfcc := some (List.replicate 13 0), mfcc_std := some (List.replicate 13 0)
    chroma := some (List.replicate 12 0), chroma_std := some (List.replicate 12 0)
    spectral_centroids := some 0, spectral_centroids_std := some 0
    spectral_rolloff := some 0, spectral_rolloff_std := some 0
    zero_crossing_rate := some 0, zero_crossing_rate_std := some 0
    spectral_bandwidth := some 0, spectral_bandwidth_std := some 0
    tempo := some 0, onset_strength := some 0, onset_strength_std := some 0
    harmonic_energy := some 0, percussive_energy := some 0
    harmonic_percussive_rat := some 0, key := some "Unknown"
    rms_energy := some 0, rms_energy_std := some 0, dynamic_range := some 0
    mel_spectral_mean := some 0, mel_spectral_std := some 0
    spectral_contrast := some (List.replicate 7 0)
    spectral_contrast_std := some (List.replicate 7 0)
    tonnetz := some (List.replicate 6 0), tonnetz_std := some (List.replicate 6 0)
    energy := some 0 }

/-- `extract_fingerprint`'s try/except wrapper: the librosa pipeline in the
try-block is external DSP code, modelled by its outcome (`Except.ok` a
fingerprint, `Except.error` any raised exception); on any exception the
function logs and returns `_get_empty_fingerprint()`. -/
def extractFingerprint (attempt : Except String Fingerprint) : Fingerprint :=
  match attempt with
  | .ok fp => fp
  | .error _ => emptyFingerprint

/-- `fingerprint.get(feature, [])` for array features; the subsequent
`features.extend(arr)` appends nothing when the list is empty. -/
def optArr (o : Option (List ℚ)) : List ℚ := o.getD []

/-- `AudioFingerprinter.create_feature_vector`: the 20 scalar features in the
source's frozen order (each via `fingerprint.get(feature, 0.0)`), then the
8 array features in the source's frozen order, each extended in place (a
missing array contributes the empty default `[]`, hence no entries). -/
def createFeatureVector (fp : Fingerprint) : List ℚ :=
  [fp.spectral_centroids.getD 0, fp.spectral_centroids_std.getD 0,
   fp.spectral_rolloff.getD 0, fp.spectral_rolloff_std.getD 0,
   fp.zero_crossing_rate.getD 0, fp.zero_crossing_rate_std.getD 0,
   fp.spectral_bandwidth.getD 0, fp.spectral_bandwidth_std.getD 0,
   fp.tempo.getD 0, fp.onset_strength.getD 0, fp.onset_strength_std.getD 0,
   fp.harmonic_energy.getD 0, fp.percussive_energy.getD 0,
   fp.harmonic_percussive_rat.getD 0,
   fp.rms_energy.getD 0, fp.rms_energy_std.getD 0, fp.dynamic_range.getD 0,
   fp.mel_spectral_mean.getD 0, fp.mel_spectral_std.getD 0, fp.energy.getD 0]
  ++ optArr fp.mfcc ++ optArr fp.mfcc_std ++ optArr fp.chroma ++ optArr fp.chroma_std
  ++ optArr fp.spectral_contrast ++ optArr fp.spectral_contrast_std
  ++ optArr fp.tonnetz ++ optArr fp.tonnetz_std

/-- All 29 documented fingerprint keys are present. -/
def fingerprintComplete (fp : Fingerprint) : Bool :=
  fp.mfcc.isSome && fp.mfcc_std.isSome && fp.chroma.isSome && fp.chroma_std.isSome &&
  fp.spectral_centroids.isSome && fp.spectral_centroids_std.isSome &&
  fp.spectral_rolloff.isSome && fp.spectral_rolloff_std.isSome &&
  fp.zero_crossing_rate.isSome && fp.zero_crossing_rate_std.isSome &&
  fp.spectral_bandwidth.isSome && fp.spectral_bandwidth_std.isSome &&
  fp.tempo.isSome && fp.onset_strength.isSome && fp.onset_strength_std.isSome &&
  fp.harmonic_energy.isSome && fp.percussive_energy.isSome &&
  fp.harmonic_percussive_rat.isSome && fp.key.isSome &&
  fp.rms_energy.isSome && fp.rms_energy_std.isSome && fp.dynamic_range.isSome &&
  fp.mel_spectral_mean.isSome && fp.mel_spectral_std.isSome &&
  fp.spectral_contrast.isSome && fp.spectral_contrast_std.isSome &&
  fp.tonnetz.isSome && fp.tonnetz_std.isSome && fp.energy.isSome

/-- Every array field has its declared length (13/13/12/12/7/7/6/6). -/
def declaredLengths (fp : Fingerprint) : Bool :=
  (optArr fp.mfcc).length == 13 && (optArr fp.mfcc_std).length == 13 &&
  (optArr fp.chroma).length == 12 && (optArr fp.chroma_std).length == 12 &&
  (optArr fp.spectral_contrast).length == 7 && (optArr fp.spectral_contrast_std).length == 7 &&
  (optArr fp.tonnetz).length == 6 && (optArr fp.tonnetz_std).length == 6

-- ===== serialization (app.store_audio_data) and parsing =====

/-- The JSON record built by `store_audio_data`'s `fingerprint_json`: the two
12/13-length arrays are stored as lists (`[]` when the key is absent), the
three spectral scalars are stored as numbers when present and as `[]`
otherwise (`Option` models number-vs-empty-list), and tempo/key/energy are
stored with `.get` defaults. -/
structure StoredFP where
  mfcc : List ℚ
  chroma : List ℚ
  spectral_centroids : Option ℚ
  spectral_rolloff : Option ℚ
  zero_crossing_rate : Option ℚ
  tempo : ℚ
  key : String
  energy : ℚ
  deriving DecidableEq

/-- `store_audio_data`'s serialisation of a fingerprint dict. -/
def fingerprintJson (fp : Fingerprint) : StoredFP :=
  { mfcc := fp.mfcc.getD []
    chroma := fp.chroma.getD []
    spectral_centroids := fp.spectral_centroids
    spectral_rolloff := fp.spectral_rolloff
    zero_crossing_rate := fp.zero_crossing_rate
    tempo := fp.tempo.getD 0
    key := fp.key.getD "Unknown"
    energy := fp.energy.getD 0 }

/-- Python truthiness test `if feature in data and data[feature]` on a list. -/
def truthyList (l : List ℚ) : Option (List ℚ) := if l = [] then none else some l

/-- Python truthiness test on a number-or-empty-list JSON value. -/
def truthyNum : Option ℚ → Option ℚ
  | some x => if x = 0 then none else some x
  | none => none

/-- `SimilarityEngine._parse_fingerprint`: keeps `mfcc`, `chroma`,
`spectral_centroids`, `spectral_rolloff`, `zero_crossing_rate` only when
truthy, always sets `tempo`, `energy` (default 0) and `key` (default
"Unknown"); no other key is ever produced. -/
def parseFingerprint (d : StoredFP) : Fingerprint :=
  { mfcc := truthyList d.mfcc
    chroma := truthyList d.chroma
    spectral_centroids := truthyNum d.spectral_centroids
    spectral_rolloff := truthyNum d.spectral_rolloff
    zero_crossing_rate := truthyNum d.zero_crossing_rate
    tempo := some d.tempo
    energy := some d.energy
    key := some d.key
    mfcc_std := none, chroma_std := none
    spectral_centroids_std := none, spectral_rolloff_std := none
    zero_crossing_rate_std := none
    spectral_bandwidth := none, spectral_bandwidth_std := none
    onset_strength := none, onset_strength_std := none
    harmonic_energy := none, percussive_energy := none
    harmonic_percussive_rat := none
    rms_energy := none, rms_energy_std := none, dynamic_range := none
    mel_spectral_mean := none, mel_spectral_std := none
    spectral_contrast := none, spectral_contrast_std := none
    tonnetz := none, tonnetz_std := none }

-- ===== key estimation (AudioFingerprinter.estimate_key) =====

def keyNames : List String :=
  ["C", "C#", "D", "D#", "E", "F"] ++ ["F#", "G", "G#", "A", "A#", "B"]

/-- Krumhansl-Schmuckler major profile. -/
def majorProfile : List ℚ :=
  [6.35, 2.23, 3.48, 2.33, 4.38, 4.09, 2.52, 5.19, 2.39, 3.66, 2.29, 2.88]

/-- Krumhansl-Schmuckler minor profile. -/
def minorProfile : List ℚ :=
  [6.33, 2.68, 3.52, 5.38, 2.60, 3.53, 2.54, 4.75, 3.98, 2.69, 3.34, 3.17]

/-- `np.roll(l, i)`: rotate right by `i`, i.e. the last `i` entries move to
the front. -/
def npRoll (l : List ℚ) (i : ℕ) : List ℚ :=
  l.drop (l.length - i % l.length) ++ l.take (l.length - i % l.length)

/-- `np.mean` of one chroma row across time (rows are nonempty in every
reachable call: extraction pads audio to at least one second). -/
def rowMean (r : List ℚ) : ℚ := r.sum / (r.length : ℚ)

/-- `np.corrcoef(x, y)[0, 1]`, i.e. Pearson correlation
`cov(x,y) / (sigma_x * sigma_y)`; the common `1/n` factors cancel, so the
un-normalised moments are used.  A `none` first argument models the all-NaN
vector obtained from dividing a zero-sum chroma mean by its sum; zero
variance gives the float quotient `0/0 = NaN`. -/
noncomputable def pearsonPV (xo : Option (List ℚ)) (y : List ℚ) : PVal :=
  match xo with
  | none => .nan
  | some x =>
    let mx := x.sum / (x.length : ℚ)
    let my := y.sum / (y.length : ℚ)
    let cxy := (List.zipWith (fun a b => (a - mx) * (b - my)) x y).sum
    let vx := (x.map (fun a => (a - mx) ^ 2)).sum
    let vy := (y.map (fun b => (b - my) ^ 2)).sum
    if vx * vy = 0 then .nan
    else .val ((cxy : ℝ) / (Real.sqrt ((vx : ℚ) : ℝ) * Real.sqrt ((vy : ℚ) : ℝ)))

open scoped Classical in
/-- Python `corr > max_corr` where `corr` may be NaN: any comparison with NaN
is false. -/
noncomputable def pvGt (p : PVal) (b : ℝ) : Bool :=
  match p with
  | .nan => false
  | .val c => decide (b < c)

/-- The value of a non-NaN `PVal` (only read behind a true `pvGt`). -/
def pvValD (p : PVal) (d : ℝ) : ℝ :=
  match p with
  | .nan => d
  | .val c => c

/-- One iteration of `estimate_key`'s loop over pitch class `i`: major is
checked first against the running best, then minor may overwrite at the same
pitch class. -/
noncomputable def stepKey (ncm : Option (List ℚ)) (acc : ℝ × String) (i : ℕ) : ℝ × String :=
  let mj := pearsonPV ncm (npRoll majorProfile i)
  let mn := pearsonPV ncm (npRoll minorProfile i)
  let acc1 := if pvGt mj acc.1 then (pvValD mj acc.1, keyNames.getD i "C" ++ " major") else acc
  if pvGt mn acc1.1 then (pvValD mn acc1.1, keyNames.getD i "C" ++ " minor") else acc1

/-- The time-averaged chroma vector divided by its sum; a zero sum makes
every entry the float `0/0 = NaN`, modelled by `none`. -/
def normChroma (chroma : List (List ℚ)) : Option (List ℚ) :=
  if (chroma.map rowMean).sum = 0 then none
  else some ((chroma.map rowMean).map (fun x => x / (chroma.map rowMean).sum))

/-- `AudioFingerprinter.estimate_key`.  The chromagram is averaged across
time, divided by its sum, correlated against the 12 rotations of each
profile, and the best correlation labels the key starting from
`max_corr = -1`, `estimated_key = 'C'`.  The surrounding try/except returns
"Unknown" on an exception; the only exception source is a chromagram whose
row count differs from the 12-entry profiles (`np.corrcoef` shape error),
modelled by the leading guard.  NaN correlations raise nothing (warnings are
suppressed). -/
noncomputable def estimateKey (chroma : List (List ℚ)) : String :=
  if chroma.length ≠ 12 then "Unknown"
  else (List.foldl (stepKey (normChroma chroma)) ((-1 : ℝ), "C") (List.range 12)).2

-- ===== scorer (SimilarityEngine._calculate_detailed_similarity) =====

/-- The similarities dict: `mfcc`/`chroma` keys exist only when both
fingerprints carry the field; on the exception path the dict is replaced by
`{'overall': 0.0}`, i.e. every channel `none` and `overall = 0`. -/
structure DetSim where
  mfcc : Option ℝ
  chroma : Option ℝ
  tempo : Option ℝ
  energy : Option ℝ
  key : Option ℝ
  overall : ℝ

/-- Whether `scipy cosine` would raise on this pair of present arrays
(`np.dot` length mismatch), triggering the scorer's except-branch. -/
def lenMismatch : Option (List ℚ) → Option (List ℚ) → Bool
  | some a, some b => decide (a.length ≠ b.length)
  | _, _ => false

/-- The scorer's only reachable exception: a length mismatch in the mfcc or
chroma cosine call. -/
def mismatchExc (q t : Fingerprint) : Bool :=
  lenMismatch q.mfcc t.mfcc || lenMismatch q.chroma t.chroma

/-- `max(0, 1 - cosine(u, v))` — the mfcc/chroma channel. -/
noncomputable def cosChannel (u v : List ℚ) : ℝ := pyMax0 (pySubOne (scipyCosine u v))

/-- `abs(qt - tt) / max(qt, tt, 1)`. -/
def tempoDiffQ (qt tt : ℚ) : ℚ := |qt - tt| / max qt (max tt 1)

/-- `max(0, 1 - tempo_diff)` — the tempo channel. -/
noncomputable def tempoChannel (qt tt : ℚ) : ℝ := max 0 (1 - (tempoDiffQ qt tt : ℝ))

/-- Energy channel: `min/max` ratio when both energies are positive, else the
neutral `0.5`. -/
noncomputable def energyChannel (qe te : ℚ) : ℝ :=
  if 0 < qe ∧ 0 < te then ((min qe te / max qe te : ℚ) : ℝ) else 0.5

/-- Key channel: `1.0` on equal known keys, `0.3` on differing known keys,
`0.5` when either is "Unknown". -/
noncomputable def keyChannel (qk tk : String) : ℝ :=
  if qk ≠ "Unknown" ∧ tk ≠ "Unknown" then (if qk = tk then 1 else 0.3) else 0.5

/-- The `if 'mfcc' in query_fp and 'mfcc' in target_fp` guard: the channel
key is written into the similarities dict only when both fingerprints carry
the field. -/
noncomputable def optCosChannel (o1 o2 : Option (List ℚ)) : Option ℝ :=
  match o1, o2 with
  | some a, some b => some (cosChannel a b)
  | _, _ => none

/-- `SimilarityEngine._calculate_detailed_similarity`.  Tempo defaults to
120, energy to 0, key to "Unknown"; `overall` is the weighted sum
`0.3 mfcc + 0.25 chroma + 0.2 tempo + 0.15 energy + 0.1 key` with absent
channels read as 0 (`similarities.get(feature, 0)`). -/
noncomputable def calcDetailedSimilarity (q t : Fingerprint) : DetSim :=
  if mismatchExc q t then ⟨none, none, none, none, none, 0⟩
  else
    let m := optCosChannel q.mfcc t.mfcc
    let c := optCosChannel q.chroma t.chroma
    let tp := tempoChannel (q.tempo.getD 120) (t.tempo.getD 120)
    let en := energyChannel (q.energy.getD 0) (t.energy.getD 0)
    let ky := keyChannel (q.key.getD "Unknown") (t.key.getD "Unknown")
    ⟨m, c, some tp, some en, some ky,
     0.3 * m.getD 0 + 0.25 * c.getD 0 + 0.2 * tp + 0.15 * en + 0.1 * ky⟩

-- ===== persistent store (app.py) =====

/-- An audio file: a path plus its byte content. -/
structure AudioFile where
  path : String
  content : String
  deriving DecidableEq

/-- `calculate_file_hash`: the SHA-256 content digest, modelled as a
collision-free function of the bytes (the digest itself is taken to be the
content). -/
def fileHashOf (f : AudioFile) : String := f.content

/-- Metadata extracted by `extract_metadata`. -/
structure Metadata where
  title : String
  artist : String
  album : String
  duration : ℚ
  deriving DecidableEq

/-- One row of the `songs` table (columns used by the engine). -/
structure SongRow where
  id : ℤ
  file_path : String
  title : String
  artist : String
  album : String
  duration : ℚ
  file_hash : String
  fingerprint_data : StoredFP
  tempo : ℚ
  key_signature : String
  energy : ℚ
  deriving DecidableEq

/-- The `songs` table plus the AUTOINCREMENT counter. -/
structure DB where
  rows : List SongRow
  next_id : ℤ
  deriving DecidableEq

/-- `store_audio_data`: `INSERT OR REPLACE` keyed on the UNIQUE columns
`file_path` and `file_hash` — SQLite deletes every conflicting row and
inserts the new one with a fresh AUTOINCREMENT id. -/
def storeAudioData (db : DB) (f : AudioFile) (fp : Fingerprint) (md : Metadata) : DB :=
  let h := fileHashOf f
  let row : SongRow :=
    { id := db.next_id, file_path := f.path, title := md.title, artist := md.artist,
      album := md.album, duration := md.duration, file_hash := h,
      fingerprint_data := fingerprintJson fp, tempo := fp.tempo.getD 0,
      key_signature := fp.key.getD "Unknown", energy := fp.energy.getD 0 }
  { rows := db.rows.filter (fun r => decide (r.file_path ≠ f.path ∧ r.file_hash ≠ h)) ++ [row],
    next_id := db.next_id + 1 }

/-- `is_file_processed`: a row with this content hash exists. -/
def isFileProcessed (db : DB) (f : AudioFile) : Bool :=
  db.rows.any (fun r => decide (r.file_hash = fileHashOf f))

/-- One file of `handle_scan_library`'s loop: skip when already processed,
else extract (the fingerprint is a function of the bytes; it is passed in)
and store. -/
def scanIngest (db : DB) (f : AudioFile) (fp : Fingerprint) (md : Metadata) : DB :=
  if isFileProcessed db f then db else storeAudioData db f fp md

-- ===== similarity engine state =====

/-- One entry of `self.indexed_songs`. -/
structure SongInfo where
  id : ℤ
  file_path : String
  title : String
  artist : String
  album : String
  tempo : ℚ
  key : String
  energy : ℚ
  fingerprint : Fingerprint
  deriving DecidableEq

/-- `SimilarityEngine` mutable state: the FAISS vectors (`none` before any
successful build), the fitted standardiser parameters, and the parallel
song-metadata list. -/
structure EngineState where
  index : Option (List (List ℝ))
  feature_dim : Option ℕ
  scaler_mean : Option (List ℝ)
  scaler_scale : Option (List ℝ)
  indexed_songs : List SongInfo

/-- The engine before any index is built. -/
def initEngine : EngineState :=
  { index := none, feature_dim := none, scaler_mean := none, scaler_scale := none,
    indexed_songs := [] }

/-- The `indexed_songs` dict built per row in `_build_faiss_index`
(`tempo = song[6]`, `key = song[7]`, `energy = song[8]`). -/
def songInfoOfRow (r : SongRow) : SongInfo :=
  ⟨r.id, r.file_path, r.title, r.artist, r.album, r.tempo, r.key_signature, r.energy,
   parseFingerprint r.fingerprint_data⟩

/-- Per-dimension means of the feature matrix (`StandardScaler.fit`). -/
def colMeans (feats : List (List ℚ)) (dim : ℕ) : List ℚ :=
  (List.range dim).map (fun j => (feats.map (fun v => v.getD j 0)).sum / (feats.length : ℚ))

/-- Per-dimension variances of the feature matrix. -/
def colVars (feats : List (List ℚ)) (dim : ℕ) : List ℚ :=
  (List.range dim).map (fun j =>
    let m := (feats.map (fun v => v.getD j 0)).sum / (feats.length : ℚ)
    (feats.map (fun v => (v.getD j 0 - m) ^ 2)).sum / (feats.length : ℚ))

/-- `StandardScaler.scale_ = sqrt(var_)` with zero variances replaced by 1
(sklearn's `_handle_zeros_in_scale`). -/
noncomputable def colScales (feats : List (List ℚ)) (dim : ℕ) : List ℝ :=
  (colVars feats dim).map (fun v => if v = 0 then 1 else Real.sqrt ((v : ℚ) : ℝ))

/-- `(x - mean) / scale` applied to one row. -/
noncomputable def standRow (mean : List ℚ) (scale : List ℝ) (v : List ℚ) : List ℝ :=
  zipWith3 (fun x m s => (((x - m : ℚ) : ℝ)) / s) v mean scale

open scoped Classical in
/-- `faiss.normalize_L2`: divide a row by its L2 norm; a zero row is left
unchanged. -/
noncomputable def l2normalize (v : List ℝ) : List ℝ :=
  let s := (v.map (fun x => x ^ 2)).sum
  if s = 0 then v else v.map (fun x => x / Real.sqrt s)

/-- `SimilarityEngine._build_faiss_index`: rebuilds `indexed_songs` from the
rows, and when the feature list is nonempty fits the standardiser
(`fit_transform`), L2-normalises, and replaces the index; when it is empty
the old index and scaler survive.  Per-row parse exceptions cannot occur in
the model (parsing is total on `StoredFP`). -/
noncomputable def buildFaissIndex (songs : List SongRow) (s : EngineState) : EngineState :=
  let infos := songs.map songInfoOfRow
  let feats := songs.map (fun r => createFeatureVector (parseFingerprint r.fingerprint_data))
  if feats.isEmpty then { s with indexed_songs := infos }
  else
    let dim := (feats.headD []).length
    let mean := colMeans feats dim
    let scale := colScales feats dim
    let rows := feats.map (fun v => l2normalize (standRow mean scale v))
    { index := some rows, feature_dim := some dim,
      scaler_mean := some (mean.map (fun q => (q : ℝ))), scaler_scale := some scale,
      indexed_songs := infos }

/-- The `song_data` dict passed to `add_song_to_index`. -/
structure SongData where
  id : ℤ
  file_path : String
  title : String
  artist : String
  album : String
  tempo : ℚ
  key_signature : String
  energy : ℚ
  fingerprint_data : StoredFP
  deriving DecidableEq

/-- The `indexed_songs` entry that `add_song_to_index` appends. -/
def songInfoOfData (sd : SongData) : SongInfo :=
  ⟨sd.id, sd.file_path, sd.title, sd.artist, sd.album, sd.tempo, sd.key_signature, sd.energy,
   parseFingerprint sd.fingerprint_data⟩

/-- `SimilarityEngine.add_song_to_index`: parses the fingerprint, computes a
feature vector that is never used afterwards, appends the song dict to
`indexed_songs`, and triggers a full `_build_faiss_index` over the database
rows only when the new list length is a multiple of 100. -/
noncomputable def addSongToIndex (s : EngineState) (sd : SongData) (dbSongs : List SongRow) :
    EngineState :=
  let songs2 := s.indexed_songs ++ [songInfoOfData sd]
  let s2 : EngineState := { s with indexed_songs := songs2 }
  if songs2.length % 100 = 0 then buildFaissIndex dbSongs s2 else s2

-- ===== local search (SimilarityEngine.search_local) =====

/-- One entry of `search_local`'s result list. -/
structure SearchResult where
  title : String
  artist : String
  album : String
  file_path : String
  similarity : ℝ
  detailed : DetSim
  tempo : ℚ
  key : String
  energy : ℚ
  rank : ℕ

/-- `StandardScaler.transform` on the query row: raises when the scaler is
unfitted (`NotFittedError`) or the feature count differs from the fitted
dimension (`ValueError`, the model's "dimension mismatch"). -/
noncomputable def scalerTransform (mean? scale? : Option (List ℝ)) (v : List ℚ) :
    Except String (List ℝ) :=
  match mean?, scale? with
  | some mean, some scale =>
    if v.length = mean.length then
      .ok (zipWith3 (fun x m s => ((x : ℚ) : ℝ) - m |> (fun d => d / s)) v mean scale)
    else .error "dimension mismatch"
  | _, _ => .error "scaler not fitted"

open scoped Classical in
/-- Descending insertion by a real-valued sort key. -/
noncomputable def insertDescBy (key : α → ℝ) (x : α) : List α → List α
  | [] => [x]
  | y :: l => if key y < key x then x :: y :: l else y :: insertDescBy key x l

/-- Descending sort by a real-valued key (models both FAISS's sorted top-k
output and Python's `results.sort(..., reverse=True)`). -/
noncomputable def sortDescBy (key : α → ℝ) : List α → List α
  | [] => []
  | x :: l => insertDescBy key x (sortDescBy key l)

/-- A placeholder `SongInfo` (an out-of-range FAISS id never occurs when the
index and `indexed_songs` were built together). -/
def dummySong : SongInfo := ⟨0, "", "", "", "", 0, "", 0, noneFingerprint⟩

open scoped Classical in
/-- The body of `search_local`'s try-block.  Returns `Except.error` where the
Python body would raise (inside `scaler.transform`). -/
noncomputable def searchLocalBody (s : EngineState) (q : Fingerprint) (max_results : ℕ)
    (threshold : ℝ) : Except String (List SearchResult) :=
  if s.index.isNone || s.indexed_songs.isEmpty then .ok []
  else do
    let qv ← scalerTransform s.scaler_mean s.scaler_scale (createFeatureVector q)
    let qn := l2normalize qv
    let vecs := s.index.getD []
    let k := min (max_results * 2) s.indexed_songs.length
    let top := (sortDescBy (fun p => p.1)
      ((vecs.map (fun v => dotR qn v)).enum.map (fun p => (p.2, p.1)))).take k
    let results := top.enum.filterMap (fun p =>
      if threshold ≤ p.2.1 then
        let song := (s.indexed_songs.get? p.2.2).getD dummySong
        some (⟨song.title, song.artist, song.album, song.file_path, p.2.1,
               calcDetailedSimilarity q song.fingerprint, song.tempo, song.key,
               song.energy, p.1 + 1⟩ : SearchResult)
      else none)
    pure ((sortDescBy (fun r => r.similarity) results).take max_results)

/-- `SimilarityEngine.search_local`: the broad `except` turns any raised
error into an empty result list. -/
noncomputable def searchLocal (s : EngineState) (q : Fingerprint) (max_results : ℕ)
    (threshold : ℝ) : List SearchResult :=
  match searchLocalBody s q max_results threshold with
  | .ok r => r
  | .error _ => []

-- ===== concrete instances used in the theorems below =====

/-- A fully populated extraction-shaped fingerprint with nonzero data. -/
def sampleFP : Fingerprint :=
  { mfcc := some [1, 2, 3, 4, 5, 6, 7, 8, 9, 10, 11, 12, 13]
    mfcc_std := some [1, 1, 1, 1, 1, 1, 1, 1, 1, 1, 1, 1, 1]
    chroma := some [1, 2, 3, 4, 5, 6, 7, 8, 9, 10, 11, 12]
    chroma_std := some [2, 2, 2, 2, 2, 2, 2, 2, 2, 2, 2, 2]
    spectral_centroids := some 1500, spectral_centroids_std := some 90
    spectral_rolloff := some 3000, spectral_rolloff_std := some 120
    zero_crossing_rate := some (1/10), zero_crossing_rate_std := some (1/100)
    spectral_bandwidth := some 2000, spectral_bandwidth_std := some 100
    tempo := some 128, onset_strength := some 2, onset_strength_std := some 1
    harmonic_energy := some 40, percussive_energy := some 10
    harmonic_percussive_rat := some 4, key := some "C major"
    rms_energy := some (1/4), rms_energy_std := some (1/8), dynamic_range := some (1/2)
    mel_spectral_mean := some (-30), mel_spectral_std := some 12
    spectral_contrast := some [3, 3, 3, 3, 3, 3, 3]
    spectral_contrast_std := some [1, 1, 1, 1, 1, 1, 1]
    tonnetz := some [1, 2, 3, 4, 5, 6], tonnetz_std := some [1, 1, 1, 1, 1, 1]
    energy := some 2 }

/-- Two fingerprints with `key = "C major"` and every other field zero. -/
def fpCmajor : Fingerprint := { emptyFingerprint with key := some "C major" }

/-- A song row stored for `sampleFP` under path "a.mp3". -/
def sampleRow : SongRow :=
  { id := 1, file_path := "a.mp3", title := "A", artist := "B", album := "C",
    duration := 200, file_hash := "h1", fingerprint_data := fingerprintJson sampleFP,
    tempo := 128, key_signature := "C major", energy := 2 }

/-- An engine state whose FAISS index holds one two-dimensional vector with a
fitted two-dimensional standardiser and one indexed song. -/
def twoDimEngine : EngineState :=
  { index := some [[1, 0]], feature_dim := some 2,
    scaler_mean := some [0, 0], scaler_scale := some [1, 1],
    indexed_songs := [songInfoOfRow sampleRow] }

/-- The `song_data` dict for a second distinct song. -/
def sampleSongData : SongData :=
  { id := 2, file_path := "b.mp3", title := "D", artist := "E", album := "F",
    tempo := 90, key_signature := "A minor", energy := 1,
    fingerprint_data := fingerprintJson emptyFingerprint }

/-- An empty library database. -/
def emptyDB : DB := { rows := [], next_id := 1 }

/-- A concrete audio file. -/
def sampleFile : AudioFile := { path := "a.mp3", content := "bytes-of-a" }

/-- Concrete metadata for `sampleFile`. -/
def sampleMeta : Metadata := { title := "A", artist := "B", album := "C", duration := 200 }

/-- A 12-row all-zero chromagram (one frame of silence). -/
def zeroChroma : List (List ℚ) := List.replicate 12 [0]

-- ===== general lemmas about the embedding =====

lemma sumSq_nil : sumSq [] = 0 := rfl

lemma dotQ_cons (a b : ℚ) (u v : List ℚ) : dotQ (a :: u) (b :: v) = a * b + dotQ u v := by
  simp [dotQ]

lemma sumSq_cons (a : ℚ) (u : List ℚ) : sumSq (a :: u) = a * a + sumSq u := by
  simp [sumSq, dotQ]

lemma sumSq_nonneg (u : List ℚ) : 0 ≤ sumSq u := by
  induction u with
  | nil => simp [sumSq_nil]
  | cons a u ih => rw [sumSq_cons]; nlinarith [mul_self_nonneg a]

/-- Cauchy-Schwarz for the list dot product. -/
lemma dotQ_sq_le (u v : List ℚ) : dotQ u v ^ 2 ≤ sumSq u * sumSq v := by
  induction u generalizing v with
  | nil => simp [dotQ, sumSq]
  | cons a u ih =>
    cases v with
    | nil => simp [dotQ, sumSq_nil, sumSq]
    | cons b v =>
      have h := ih v
      have hsu := sumSq_nonneg u
      have hsv := sumSq_nonneg v
      rw [dotQ_cons, sumSq_cons, sumSq_cons]
      have h2 : (2 * (a * b) * dotQ u v) ^ 2 ≤ (a ^ 2 * sumSq v + b ^ 2 * sumSq u) ^ 2 := by
        nlinarith [sq_nonneg (a ^ 2 * sumSq v - b ^ 2 * sumSq u), sq_nonneg (a * b),
          mul_nonneg hsu hsv]
      have h3 : 0 ≤ a ^ 2 * sumSq v + b ^ 2 * sumSq u := by positivity
      have h4 : 2 * (a * b) * dotQ u v ≤ a ^ 2 * sumSq v + b ^ 2 * sumSq u := by
        nlinarith [h2, h3]
      nlinarith [h, h4]

lemma cosChannel_nonneg (u v : List ℚ) : 0 ≤ cosChannel u v := by
  unfold cosChannel scipyCosine
  split
  · simp [pySubOne, pyMax0]
  · simp [pySubOne, pyMax0]

lemma cosChannel_le_one (u v : List ℚ) : cosChannel u v ≤ 1 := by
  unfold cosChannel scipyCosine
  split
  · simp [pySubOne, pyMax0]
  · rename_i hne
    simp only [pySubOne, pyMax0]
    have hP : (0 : ℚ) < sumSq u * sumSq v :=
      lt_of_le_of_ne (mul_nonneg (sumSq_nonneg u) (sumSq_nonneg v)) (Ne.symm hne)
    have hPR : (0 : ℝ) < ((sumSq u * sumSq v : ℚ) : ℝ) := by exact_mod_cast hP
    have hsq : (0 : ℝ) < Real.sqrt ((sumSq u * sumSq v : ℚ) : ℝ) := Real.sqrt_pos.mpr hPR
    apply max_le (by norm_num)
    have hd : (dotQ u v : ℝ) ≤ Real.sqrt ((sumSq u * sumSq v : ℚ) : ℝ) := by
      have hcs : ((dotQ u v : ℝ)) ^ 2 ≤ ((sumSq u * sumSq v : ℚ) : ℝ) := by
        exact_mod_cast dotQ_sq_le u v
      calc (dotQ u v : ℝ) ≤ |(dotQ u v : ℝ)| := le_abs_self _
        _ = Real.sqrt (((dotQ u v : ℝ)) ^ 2) := (Real.sqrt_sq_eq_abs _).symm
        _ ≤ Real.sqrt ((sumSq u * sumSq v : ℚ) : ℝ) := Real.sqrt_le_sqrt hcs
    have := (div_le_one hsq).mpr hd
    linarith

lemma tempoDiffQ_nonneg (qt tt : ℚ) : 0 ≤ tempoDiffQ qt tt := by
  unfold tempoDiffQ
  have h1 : (1 : ℚ) ≤ max qt (max tt 1) := le_trans (le_max_right tt 1) (le_max_right qt _)
  exact div_nonneg (abs_nonneg _) (by linarith)

lemma tempoChannel_nonneg (qt tt : ℚ) : 0 ≤ tempoChannel qt tt := le_max_left _ _

lemma tempoChannel_le_one (qt tt : ℚ) : tempoChannel qt tt ≤ 1 := by
  unfold tempoChannel
  apply max_le (by norm_num)
  have h := tempoDiffQ_nonneg qt tt
  have h2 : (0 : ℝ) ≤ (tempoDiffQ qt tt : ℝ) := by exact_mod_cast h
  linarith

lemma energyChannel_nonneg (qe te : ℚ) : 0 ≤ energyChannel qe te := by
  unfold energyChannel
  split
  · rename_i h
    have h1 : (0 : ℚ) < max qe te := lt_max_of_lt_left h.1
    have h2 : (0 : ℚ) ≤ min qe te := le_min h.1.le h.2.le
    have : (0 : ℚ) ≤ min qe te / max qe te := div_nonneg h2 h1.le
    exact_mod_cast this
  · norm_num

lemma energyChannel_le_one (qe te : ℚ) : energyChannel qe te ≤ 1 := by
  unfold energyChannel
  split
  · rename_i h
    have h1 : (0 : ℚ) < max qe te := lt_max_of_lt_left h.1
    have h2 : min qe te ≤ max qe te := min_le_of_left_le (le_max_left _ _)
    have : min qe te / max qe te ≤ 1 := (div_le_one h1).mpr h2
    exact_mod_cast this
  · norm_num

lemma keyChannel_nonneg (qk tk : String) : 0 ≤ keyChannel qk tk := by
  unfold keyChannel
  split
  · split <;> norm_num
  · norm_num

lemma keyChannel_le_one (qk tk : String) : keyChannel qk tk ≤ 1 := by
  unfold keyChannel
  split
  · split <;> norm_num
  · norm_num

/-- The scorer on its exception path. -/
lemma calc_of_exc {q t : Fingerprint} (h : mismatchExc q t = true) :
    calcDetailedSimilarity q t = ⟨none, none, none, none, none, 0⟩ := by
  simp [calcDetailedSimilarity, h]

/-- The scorer off its exception path, fully unfolded. -/
lemma calc_of_ok {q t : Fingerprint} (h : mismatchExc q t = false) :
    calcDetailedSimilarity q t =
      ⟨optCosChannel q.mfcc t.mfcc,
       optCosChannel q.chroma t.chroma,
       some (tempoChannel (q.tempo.getD 120) (t.tempo.getD 120)),
       some (energyChannel (q.energy.getD 0) (t.energy.getD 0)),
       some (keyChannel (q.key.getD "Unknown") (t.key.getD "Unknown")),
       0.3 * (optCosChannel q.mfcc t.mfcc).getD 0
       + 0.25 * (optCosChannel q.chroma t.chroma).getD 0
       + 0.2 * tempoChannel (q.tempo.getD 120) (t.tempo.getD 120)
       + 0.15 * energyChannel (q.energy.getD 0) (t.energy.getD 0)
       + 0.1 * keyChannel (q.key.getD "Unknown") (t.key.getD "Unknown")⟩ := by
  simp [calcDetailedSimilarity, h]

-- ===== C1: dimensionality of create_feature_vector =====

/-- Claim C1, counterexample.  The pipeline's own store-then-parse of the
fully populated zero fingerprint yields a fingerprint whose feature vector
has 45 entries (20 scalars + 13 mfcc + 12 chroma), not 96: `_parse_fingerprint`
never reproduces `mfcc_std`, `chroma_std`, `spectral_contrast(_std)` or
`tonnetz(_std)`, and `create_feature_vector` appends nothing for them. -/
theorem c1_counterexample :
    (createFeatureVector (parseFingerprint (fingerprintJson emptyFingerprint))).length = 45 ∧
    (createFeatureVector (parseFingerprint (fingerprintJson emptyFingerprint))).length ≠ 96 := by
  constructor <;> decide

/-- Claim C1, amended.  `create_feature_vector` always emits the 20 scalar
slots (a missing scalar contributes a single zero) followed by the present
array fields in the frozen order; a missing array field contributes no
entries at all, so the length is `20 +` the sum of the present arrays'
lengths — equal to 96 exactly when all eight arrays are present with their
declared lengths, and smaller otherwise. -/
theorem c1_main (fp : Fingerprint) :
    (createFeatureVector fp).length =
      20 + ((optArr fp.mfcc).length + (optArr fp.mfcc_std).length +
        (optArr fp.chroma).length + (optArr fp.chroma_std).length +
        (optArr fp.spectral_contrast).length + (optArr fp.spectral_contrast_std).length +
        (optArr fp.tonnetz).length + (optArr fp.tonnetz_std).length) ∧
    (declaredLengths fp = true → (createFeatureVector fp).length = 96) := by
  have h : (createFeatureVector fp).length =
      20 + ((optArr fp.mfcc).length + (optArr fp.mfcc_std).length +
        (optArr fp.chroma).length + (optArr fp.chroma_std).length +
        (optArr fp.spectral_contrast).length + (optArr fp.spectral_contrast_std).length +
        (optArr fp.tonnetz).length + (optArr fp.tonnetz_std).length) := by
    simp [createFeatureVector, List.length_append]
    ring
  refine ⟨h, fun hd => ?_⟩
  simp only [declaredLengths, Bool.and_eq_true, beq_iff_eq] at hd
  omega

/-- Claim C1, witness: the zero fingerprint has every array at its declared
length and vectorises to exactly 96 entries. -/
theorem c1_witness :
    declaredLengths emptyFingerprint = true ∧
    (createFeatureVector emptyFingerprint).length = 96 :=
  ⟨by decide, (c1_main emptyFingerprint).2 (by decide)⟩

-- ===== C2: serialize-then-parse round trip =====

/-- Claim C2, counterexample.  Storing and re-parsing a fully populated
extraction fingerprint does not return the original: `mfcc_std` (among many
other fields) is absent from the parsed result. -/
theorem c2_counterexample :
    parseFingerprint (fingerprintJson sampleFP) ≠ sampleFP ∧
    (parseFingerprint (fingerprintJson sampleFP)).mfcc_std = none ∧
    sampleFP.mfcc_std = some [1, 1, 1, 1, 1, 1, 1, 1, 1, 1, 1, 1, 1] := by
  refine ⟨?_, by decide, by decide⟩
  decide

/-- Claim C2, amended.  The store keeps only `mfcc`, `chroma`, the three
spectral scalars, `tempo`, `key` and `energy`; parsing returns `mfcc` and
`chroma` exactly when present and nonempty, the three scalars exactly when
present and nonzero, and `tempo`/`energy`/`key` always (with the store's
`.get` defaults); every other field of the original — `mfcc_std`,
`chroma_std`, `spectral_contrast(_std)`, `tonnetz(_std)` and the remaining
scalar statistics — is absent from the parsed fingerprint. -/
theorem c2_main (fp : Fingerprint) (m c : List ℚ) (x : ℚ)
    (hm : fp.mfcc = some m) (hm0 : m ≠ [])
    (hc : fp.chroma = some c) (hc0 : c ≠ [])
    (hs : fp.spectral_centroids = some x) (hx : x ≠ 0) :
    (parseFingerprint (fingerprintJson fp)).mfcc = some m ∧
    (parseFingerprint (fingerprintJson fp)).chroma = some c ∧
    (parseFingerprint (fingerprintJson fp)).spectral_centroids = some x ∧
    (parseFingerprint (fingerprintJson fp)).tempo = some (fp.tempo.getD 0) ∧
    (parseFingerprint (fingerprintJson fp)).energy = some (fp.energy.getD 0) ∧
    (parseFingerprint (fingerprintJson fp)).key = some (fp.key.getD "Unknown") ∧
    (parseFingerprint (fingerprintJson fp)).mfcc_std = none ∧
    (parseFingerprint (fingerprintJson fp)).chroma_std = none ∧
    (parseFingerprint (fingerprintJson fp)).spectral_contrast = none ∧
    (parseFingerprint (fingerprintJson fp)).spectral_contrast_std = none ∧
    (parseFingerprint (fingerprintJson fp)).tonnetz = none ∧
    (parseFingerprint (fingerprintJson fp)).tonnetz_std = none ∧
    (parseFingerprint (fingerprintJson fp)).spectral_bandwidth = none ∧
    (parseFingerprint (fingerprintJson fp)).onset_strength = none ∧
    (parseFingerprint (fingerprintJson fp)).harmonic_energy = none ∧
    (parseFingerprint (fingerprintJson fp)).rms_energy = none ∧
    (parseFingerprint (fingerprintJson fp)).dynamic_range = none := by
  simp [parseFingerprint, fingerprintJson, truthyList, truthyNum, hm, hc, hs, hm0, hc0, hx]

/-- Claim C2, witness: the round trip evaluated on `sampleFP`. -/
theorem c2_witness :
    (sampleFP.mfcc = some [1, 2, 3, 4, 5, 6, 7, 8, 9, 10, 11, 12, 13] ∧
     sampleFP.chroma = some [1, 2, 3, 4, 5, 6, 7, 8, 9, 10, 11, 12] ∧
     sampleFP.spectral_centroids = some 1500) ∧
    (parseFingerprint (fingerprintJson sampleFP)).mfcc =
      some [1, 2, 3, 4, 5, 6, 7, 8, 9, 10, 11, 12, 13] ∧
    (parseFingerprint (fingerprintJson sampleFP)).mfcc_std = none := by
  have h := c2_main sampleFP [1, 2, 3, 4, 5, 6, 7, 8, 9, 10, 11, 12, 13]
    [1, 2, 3, 4, 5, 6, 7, 8, 9, 10, 11, 12] 1500
    (by decide) (by decide) (by decide) (by decide) (by decide) (by decide)
  exact ⟨⟨by decide, by decide, by decide⟩, h.1, h.2.2.2.2.2.2.1⟩

-- ===== engine and store lemmas =====

/-- `search_local` returns `[]` before any index was built. -/
lemma searchLocal_of_index_none (s : EngineState) (q : Fingerprint) (mr : ℕ) (th : ℝ)
    (h : s.index = none) : searchLocal s q mr th = [] := by
  have hb : searchLocalBody s q mr th = .ok [] := by
    unfold searchLocalBody
    rw [h]
    simp
  simp [searchLocal, hb]

/-- `search_local` returns `[]` when no songs are indexed. -/
lemma searchLocal_of_no_songs (s : EngineState) (q : Fingerprint) (mr : ℕ) (th : ℝ)
    (h : s.indexed_songs = []) : searchLocal s q mr th = [] := by
  have hb : searchLocalBody s q mr th = .ok [] := by
    unfold searchLocalBody
    rw [h]
    simp
  simp [searchLocal, hb]

/-- `_build_faiss_index` repopulates `indexed_songs` with one entry per row
in both of its branches. -/
lemma build_songs (rows : List SongRow) (s : EngineState) :
    (buildFaissIndex rows s).indexed_songs = rows.map songInfoOfRow := by
  unfold buildFaissIndex
  by_cases h : (List.map (fun r => createFeatureVector (parseFingerprint r.fingerprint_data))
      rows).isEmpty
  · simp [h]
  · simp [h]

/-- After `store_audio_data` exactly one row carries the stored file's hash. -/
lemma store_hash_count (db : DB) (f : AudioFile) (fp : Fingerprint) (md : Metadata) :
    ((storeAudioData db f fp md).rows.filter
      (fun r => decide (r.file_hash = fileHashOf f))).length = 1 := by
  unfold storeAudioData
  rw [List.filter_append]
  have h1 : (db.rows.filter
        (fun r => decide (r.file_path ≠ f.path ∧ r.file_hash ≠ fileHashOf f))).filter
      (fun r => decide (r.file_hash = fileHashOf f)) = [] := by
    rw [List.filter_eq_nil_iff]
    intro r hr
    rw [List.mem_filter] at hr
    have h2 := of_decide_eq_true hr.2
    simp [h2.2]
  rw [h1]
  simp

/-- The freshly stored row makes `is_file_processed` true. -/
lemma processed_after_store (db : DB) (f : AudioFile) (fp : Fingerprint) (md : Metadata) :
    isFileProcessed (storeAudioData db f fp md) f = true := by
  unfold isFileProcessed storeAudioData
  rw [List.any_append]
  simp

-- ===== C3: add_song_to_index =====

/-- Claim C3, counterexample.  Adding a song to an engine whose FAISS index
holds one vector leaves the vector index, the fitted standardiser and the
feature dimension untouched — only the metadata list grows — so the added
entry's vector was not appended to the index and cannot participate in
nearest-neighbor search. -/
theorem c3_counterexample :
    (addSongToIndex twoDimEngine sampleSongData []).index = twoDimEngine.index ∧
    (addSongToIndex twoDimEngine sampleSongData []).scaler_mean = twoDimEngine.scaler_mean ∧
    (addSongToIndex twoDimEngine sampleSongData []).scaler_scale = twoDimEngine.scaler_scale ∧
    ((addSongToIndex twoDimEngine sampleSongData []).index.getD []).length = 1 ∧
    (addSongToIndex twoDimEngine sampleSongData []).indexed_songs.length = 2 := by
  refine ⟨rfl, rfl, rfl, rfl, rfl⟩

/-- Claim C3, amended.  `add_song_to_index` only appends the parsed song to
the `indexed_songs` metadata list (the feature vector it computes is
discarded); the FAISS index and the standardiser are unchanged, so the new
entry does not take part in searches — unless the new list length is a
multiple of 100, in which case a full `_build_faiss_index` over the database
rows runs (re-fitting the standardiser). -/
theorem c3_main (s : EngineState) (sd : SongData) (db : List SongRow)
    (h : (s.indexed_songs.length + 1) % 100 ≠ 0) :
    addSongToIndex s sd db =
      { s with indexed_songs := s.indexed_songs ++ [songInfoOfData sd] } := by
  unfold addSongToIndex
  rw [if_neg]
  simpa [List.length_append] using h

/-- Claim C3, witness: the amended statement evaluated on the concrete
one-song engine. -/
theorem c3_witness :
    (twoDimEngine.indexed_songs.length + 1) % 100 ≠ 0 ∧
    addSongToIndex twoDimEngine sampleSongData [] =
      { twoDimEngine with
        indexed_songs := twoDimEngine.indexed_songs ++ [songInfoOfData sampleSongData] } :=
  ⟨by decide, c3_main twoDimEngine sampleSongData [] (by decide)⟩

-- ===== C5: search failure modes =====

/-- Claim C5, counterexample.  A query whose feature vector (20 entries, from
an empty fingerprint dict) does not match the fitted two-dimensional
standardiser makes `scaler.transform` raise inside the try-block, but
`search_local` catches it and returns the empty list — no `SchemaMismatch`
(nor any other error) reaches the caller. -/
theorem c5_counterexample :
    searchLocalBody twoDimEngine noneFingerprint 20 (7/10) = .error "dimension mismatch" ∧
    searchLocal twoDimEngine noneFingerprint 20 (7/10) = [] := by
  constructor <;> rfl

/-- Claim C5, amended.  `search_local` on an uninitialized index or an empty
song list returns `[]`; on a query dimension different from the fitted
standardiser dimension the internal transform error is caught by the broad
`except` and the caller again receives `[]` — the failure is not surfaced as
an exception. -/
theorem c5_main (s : EngineState) (q : Fingerprint) (mr : ℕ) (th : ℝ) :
    (s.index = none → searchLocal s q mr th = []) ∧
    (s.indexed_songs = [] → searchLocal s q mr th = []) ∧
    (∀ mean scale vecs, s.index = some vecs → s.indexed_songs ≠ [] →
      s.scaler_mean = some mean → s.scaler_scale = some scale →
      (createFeatureVector q).length ≠ mean.length →
      searchLocalBody s q mr th = .error "dimension mismatch" ∧
      searchLocal s q mr th = []) := by
  refine ⟨searchLocal_of_index_none s q mr th, searchLocal_of_no_songs s q mr th, ?_⟩
  intro mean scale vecs hi hs hm hsc hlen
  have hne : s.indexed_songs.isEmpty = false := by
    cases hcase : s.indexed_songs with
    | nil => exact absurd hcase hs
    | cons a l => rfl
  have ht : scalerTransform s.scaler_mean s.scaler_scale (createFeatureVector q) =
      .error "dimension mismatch" := by
    rw [hm, hsc]
    simp [scalerTransform, hlen]
  have hb : searchLocalBody s q mr th = .error "dimension mismatch" := by
    unfold searchLocalBody
    rw [hi, hne]
    simp only [Option.isNone_some, Bool.or_false, Bool.false_eq_true, if_false]
    rw [ht]
    rfl
  exact ⟨hb, by simp [searchLocal, hb]⟩

/-- Claim C5, witness: the amended statement evaluated on the concrete
two-dimensional engine and a 20-dimensional query. -/
theorem c5_witness :
    (twoDimEngine.index = some [[1, 0]] ∧ twoDimEngine.indexed_songs ≠ [] ∧
     twoDimEngine.scaler_mean = some [0, 0] ∧ twoDimEngine.scaler_scale = some [1, 1] ∧
     (createFeatureVector noneFingerprint).length ≠ ([0, 0] : List ℝ).length) ∧
    searchLocalBody twoDimEngine noneFingerprint 20 (7/10) = .error "dimension mismatch" ∧
    searchLocal twoDimEngine noneFingerprint 20 (7/10) = [] := by
  have h := (c5_main twoDimEngine noneFingerprint 20 (7/10)).2.2 [0, 0] [1, 1] [[1, 0]]
    rfl (by intro hx; exact absurd hx (by decide)) rfl rfl (by decide)
  exact ⟨⟨rfl, by intro hx; exact absurd hx (by decide), rfl, rfl, by decide⟩, h⟩

-- ===== C7: extraction failure policy =====

/-- Claim C7, confirmed.  Any exception inside `extract_fingerprint`'s
try-block yields `_get_empty_fingerprint()`: all 29 documented keys present,
arrays of declared lengths, `key = "Unknown"`; the zero fingerprint
vectorises to the full 96-entry vector and is a valid `search_local` query
(searching any unbuilt index with it cleanly returns `[]`). -/
theorem c7_main (e : String) :
    extractFingerprint (Except.error e) = emptyFingerprint ∧
    emptyFingerprint.key = some "Unknown" ∧
    fingerprintComplete emptyFingerprint = true ∧
    declaredLengths emptyFingerprint = true ∧
    (createFeatureVector emptyFingerprint).length = 96 ∧
    (∀ s : EngineState, s.index = none → searchLocal s emptyFingerprint 20 (7/10) = []) :=
  ⟨rfl, rfl, by decide, by decide, by decide,
   fun s h => searchLocal_of_index_none s emptyFingerprint 20 (7/10) h⟩

/-- Claim C7, witness: the failure path evaluated at a concrete exception and
the initial engine state. -/
theorem c7_witness :
    extractFingerprint (Except.error "load failure") = emptyFingerprint ∧
    initEngine.index = none ∧
    searchLocal initEngine emptyFingerprint 20 (7/10) = [] :=
  ⟨(c7_main "load failure").1, rfl,
   (c7_main "load failure").2.2.2.2.2 initEngine rfl⟩

-- ===== C9: content-hash deduplication =====

/-- Claim C9, confirmed.  Scanning the same bytes a second time is a literal
no-op (`is_file_processed` keys on the SHA-256 content hash), the store then
holds exactly one row with that hash, and `_build_faiss_index` over the
store derives exactly one index entry per row — hence one entry for the
file.  The hypothesis is the store's UNIQUE-`file_hash` invariant. -/
theorem c9_main (db : DB) (f : AudioFile) (fp : Fingerprint) (md : Metadata)
    (h : (db.rows.filter (fun r => decide (r.file_hash = fileHashOf f))).length ≤ 1) :
    scanIngest (scanIngest db f fp md) f fp md = scanIngest db f fp md ∧
    ((scanIngest db f fp md).rows.filter
      (fun r => decide (r.file_hash = fileHashOf f))).length = 1 ∧
    (buildFaissIndex (scanIngest db f fp md).rows initEngine).indexed_songs
      = (scanIngest db f fp md).rows.map songInfoOfRow := by
  refine ⟨?_, ?_, build_songs _ _⟩
  · by_cases hp : isFileProcessed db f
    · simp [scanIngest, hp]
    · simp only [scanIngest, hp, if_false, Bool.false_eq_true]
      rw [if_pos (processed_after_store db f fp md)]
  · by_cases hp : isFileProcessed db f
    · simp only [scanIngest, hp, if_true]
      unfold isFileProcessed at hp
      rw [List.any_eq_true] at hp
      obtain ⟨r, hr, hrh⟩ := hp
      have hmem : r ∈ db.rows.filter (fun r => decide (r.file_hash = fileHashOf f)) :=
        List.mem_filter.mpr ⟨hr, hrh⟩
      have hpos : 0 < (db.rows.filter
          (fun r => decide (r.file_hash = fileHashOf f))).length :=
        List.length_pos.mpr (fun hnil => by simp [hnil] at hmem)
      omega
    · simp only [scanIngest, hp, if_false, Bool.false_eq_true]
      exact store_hash_count db f fp md

/-- Claim C9, witness: ingesting a concrete file twice into an empty library. -/
theorem c9_witness :
    (emptyDB.rows.filter (fun r => decide (r.file_hash = fileHashOf sampleFile))).length ≤ 1 ∧
    scanIngest (scanIngest emptyDB sampleFile sampleFP sampleMeta) sampleFile sampleFP sampleMeta
      = scanIngest emptyDB sampleFile sampleFP sampleMeta ∧
    ((scanIngest emptyDB sampleFile sampleFP sampleMeta).rows.filter
      (fun r => decide (r.file_hash = fileHashOf sampleFile))).length = 1 :=
  ⟨by decide, (c9_main emptyDB sampleFile sampleFP sampleMeta (by decide)).1,
   (c9_main emptyDB sampleFile sampleFP sampleMeta (by decide)).2.1⟩

-- ===== scorer channel lemmas =====

lemma optCosChannel_isSome (o1 o2 : Option (List ℚ)) :
    (optCosChannel o1 o2).isSome ↔ o1.isSome ∧ o2.isSome := by
  cases o1 <;> cases o2 <;> simp [optCosChannel]

lemma optCosChannel_bounds (o1 o2 : Option (List ℚ)) (x : ℝ)
    (h : optCosChannel o1 o2 = some x) : 0 ≤ x ∧ x ≤ 1 := by
  cases o1 with
  | none => simp [optCosChannel] at h
  | some a =>
    cases o2 with
    | none => simp [optCosChannel] at h
    | some b =>
      simp only [optCosChannel, Option.some.injEq] at h
      exact h ▸ ⟨cosChannel_nonneg a b, cosChannel_le_one a b⟩

lemma optCosChannel_getD (o1 o2 : Option (List ℚ)) :
    0 ≤ (optCosChannel o1 o2).getD 0 ∧ (optCosChannel o1 o2).getD 0 ≤ 1 := by
  cases o1 <;> cases o2 <;>
    simp [optCosChannel, cosChannel_nonneg, cosChannel_le_one]

lemma sumSq_replicate_zero (n : ℕ) : sumSq (List.replicate n (0 : ℚ)) = 0 := by
  induction n with
  | zero => rfl
  | succ n ih => rw [List.replicate_succ, sumSq_cons, ih]; ring

lemma cosChannel_zero13 :
    cosChannel (List.replicate 13 (0 : ℚ)) (List.replicate 13 0) = 0 := by
  unfold cosChannel scipyCosine
  rw [if_pos (by rw [sumSq_replicate_zero]; ring)]
  rfl

lemma cosChannel_zero12 :
    cosChannel (List.replicate 12 (0 : ℚ)) (List.replicate 12 0) = 0 := by
  unfold cosChannel scipyCosine
  rw [if_pos (by rw [sumSq_replicate_zero]; ring)]
  rfl

lemma tempoChannel_zero_zero : tempoChannel 0 0 = 1 := by
  unfold tempoChannel tempoDiffQ
  norm_num

lemma energyChannel_zero_zero : energyChannel 0 0 = 0.5 := by
  unfold energyChannel
  rw [if_neg (by norm_num)]

lemma keyChannel_CmajorCmajor : keyChannel "C major" "C major" = 1 := by
  unfold keyChannel
  rw [if_pos (by decide), if_pos rfl]

/-- The whole scorer evaluated on the key-only pair of Claim C4. -/
lemma calc_fpCmajor :
    calcDetailedSimilarity fpCmajor fpCmajor =
      ⟨some 0, some 0, some 1, some 0.5, some 1, 0.375⟩ := by
  have hexc : mismatchExc fpCmajor fpCmajor = false := by decide
  rw [calc_of_ok hexc]
  have hm : fpCmajor.mfcc = some (List.replicate 13 (0 : ℚ)) := rfl
  have hc : fpCmajor.chroma = some (List.replicate 12 (0 : ℚ)) := rfl
  have ht : fpCmajor.tempo = some (0 : ℚ) := rfl
  have he : fpCmajor.energy = some (0 : ℚ) := rfl
  have hk : fpCmajor.key = some "C major" := rfl
  rw [hm, hc, ht, he, hk]
  simp only [optCosChannel, cosChannel_zero13, cosChannel_zero12,
    tempoChannel_zero_zero, energyChannel_zero_zero, keyChannel_CmajorCmajor,
    Option.getD_some, DetSim.mk.injEq]
  norm_num

-- ===== C4: key-only similarity score =====

/-- Claim C4, counterexample.  On the key-only pair the scorer's overall is
not 0.175: with both tempos equal to 0 the tempo channel is
`max(0, 1 - 0/max(0,0,1)) = 1` and contributes `0.2`, not `0`. -/
theorem c4_counterexample :
    (calcDetailedSimilarity fpCmajor fpCmajor).overall ≠ (0.175 : ℝ) := by
  rw [calc_fpCmajor]
  norm_num

/-- Claim C4, amended.  For two fingerprints with `key = "C major"` and every
other field zero: `key = 1.0` as claimed, but the mfcc and chroma channels
are `0` (zero vectors give a NaN cosine, and `max(0, NaN) = 0`), the tempo
channel is `1` (both tempos are 0, zero difference), energy is `0.5`, so
`overall = 0.2 + 0.075 + 0.1 = 0.375`. -/
theorem c4_main :
    (calcDetailedSimilarity fpCmajor fpCmajor).key = some 1 ∧
    (calcDetailedSimilarity fpCmajor fpCmajor).mfcc = some 0 ∧
    (calcDetailedSimilarity fpCmajor fpCmajor).chroma = some 0 ∧
    (calcDetailedSimilarity fpCmajor fpCmajor).tempo = some 1 ∧
    (calcDetailedSimilarity fpCmajor fpCmajor).energy = some 0.5 ∧
    (calcDetailedSimilarity fpCmajor fpCmajor).overall = 0.375 := by
  rw [calc_fpCmajor]
  exact ⟨rfl, rfl, rfl, rfl, rfl, rfl⟩

-- ===== C10: tempo default of 120 BPM =====

/-- Claim C10, confirmed.  A missing tempo is read as 120 BPM: when both are
missing the tempo channel is 1, and when exactly one is missing it is
`max(0, 1 - |120 - other| / max(120, other, 1))`. -/
theorem c10_main (q t : Fingerprint) (hexc : mismatchExc q t = false) :
    (q.tempo = none → t.tempo = none → (calcDetailedSimilarity q t).tempo = some 1) ∧
    (∀ r : ℚ, q.tempo = none → t.tempo = some r →
      (calcDetailedSimilarity q t).tempo
        = some (max 0 (1 - ((|120 - r| / max 120 (max r 1) : ℚ) : ℝ)))) ∧
    (∀ r : ℚ, q.tempo = some r → t.tempo = none →
      (calcDetailedSimilarity q t).tempo
        = some (max 0 (1 - ((|120 - r| / max 120 (max r 1) : ℚ) : ℝ)))) := by
  rw [calc_of_ok hexc]
  refine ⟨?_, ?_, ?_⟩
  · intro hq ht
    rw [hq, ht]
    norm_num [tempoChannel, tempoDiffQ]
  · intro r hq ht
    rw [hq, ht]
    rfl
  · intro r hq ht
    rw [hq, ht]
    show some (tempoChannel r 120) = _
    rw [tempoChannel, tempoDiffQ, abs_sub_comm, max_left_comm]

/-- Claim C10, witness: two fingerprints with no tempo field score a tempo
channel of exactly 1. -/
theorem c10_witness :
    mismatchExc noneFingerprint noneFingerprint = false ∧
    (calcDetailedSimilarity noneFingerprint noneFingerprint).tempo = some 1 :=
  ⟨by decide, (c10_main noneFingerprint noneFingerprint (by decide)).1 rfl rfl⟩

-- ===== C6: scorer channels and their range =====

/-- Claim C6, counterexample.  For a pair of fingerprints without the mfcc
field the returned similarities dict has no `mfcc` key at all (and no
`chroma` key): the scorer does not always return all six channels. -/
theorem c6_counterexample :
    (calcDetailedSimilarity noneFingerprint noneFingerprint).mfcc = none ∧
    (calcDetailedSimilarity noneFingerprint noneFingerprint).chroma = none := by
  rw [calc_of_ok (by decide)]
  exact ⟨rfl, rfl⟩

/-- Claim C6, amended.  Off the internal exception path the scorer always
returns the tempo, energy, key and overall channels, but mfcc and chroma are
present exactly when both fingerprints carry the field; every returned
channel value, and the overall, lies in `[0, 1]` (on the exception path the
result is `{'overall': 0.0}`, also in range). -/
theorem c6_main (q t : Fingerprint) :
    (0 ≤ (calcDetailedSimilarity q t).overall ∧ (calcDetailedSimilarity q t).overall ≤ 1) ∧
    (∀ x : ℝ, (calcDetailedSimilarity q t).mfcc = some x → 0 ≤ x ∧ x ≤ 1) ∧
    (∀ x : ℝ, (calcDetailedSimilarity q t).chroma = some x → 0 ≤ x ∧ x ≤ 1) ∧
    (∀ x : ℝ, (calcDetailedSimilarity q t).tempo = some x → 0 ≤ x ∧ x ≤ 1) ∧
    (∀ x : ℝ, (calcDetailedSimilarity q t).energy = some x → 0 ≤ x ∧ x ≤ 1) ∧
    (∀ x : ℝ, (calcDetailedSimilarity q t).key = some x → 0 ≤ x ∧ x ≤ 1) ∧
    (mismatchExc q t = false →
      ((calcDetailedSimilarity q t).tempo.isSome = true ∧
       (calcDetailedSimilarity q t).energy.isSome = true ∧
       (calcDetailedSimilarity q t).key.isSome = true ∧
       ((calcDetailedSimilarity q t).mfcc.isSome = true ↔
         q.mfcc.isSome = true ∧ t.mfcc.isSome = true) ∧
       ((calcDetailedSimilarity q t).chroma.isSome = true ↔
         q.chroma.isSome = true ∧ t.chroma.isSome = true))) := by
  by_cases hexc : mismatchExc q t = true
  · rw [calc_of_exc hexc]
    refine ⟨⟨by norm_num, by norm_num⟩, ?_, ?_, ?_, ?_, ?_, ?_⟩
    · intro x hx; exact absurd hx (by simp)
    · intro x hx; exact absurd hx (by simp)
    · intro x hx; exact absurd hx (by simp)
    · intro x hx; exact absurd hx (by simp)
    · intro x hx; exact absurd hx (by simp)
    · intro hf; simp [hf] at hexc
  · have hexc2 : mismatchExc q t = false := by
      cases h : mismatchExc q t
      · rfl
      · exact absurd h hexc
    rw [calc_of_ok hexc2]
    obtain ⟨hm0, hm1⟩ := optCosChannel_getD q.mfcc t.mfcc
    obtain ⟨hc0, hc1⟩ := optCosChannel_getD q.chroma t.chroma
    have ht0 := tempoChannel_nonneg (q.tempo.getD 120) (t.tempo.getD 120)
    have ht1 := tempoChannel_le_one (q.tempo.getD 120) (t.tempo.getD 120)
    have he0 := energyChannel_nonneg (q.energy.getD 0) (t.energy.getD 0)
    have he1 := energyChannel_le_one (q.energy.getD 0) (t.energy.getD 0)
    have hk0 := keyChannel_nonneg (q.key.getD "Unknown") (t.key.getD "Unknown")
    have hk1 := keyChannel_le_one (q.key.getD "Unknown") (t.key.getD "Unknown")
    refine ⟨⟨by dsimp only; nlinarith, by dsimp only; nlinarith⟩, ?_, ?_, ?_, ?_, ?_, ?_⟩
    · intro x hx; exact optCosChannel_bounds _ _ x hx
    · intro x hx; exact optCosChannel_bounds _ _ x hx
    · intro x hx
      dsimp only at hx
      rw [Option.some.injEq] at hx
      exact hx ▸ ⟨ht0, ht1⟩
    · intro x hx
      dsimp only at hx
      rw [Option.some.injEq] at hx
      exact hx ▸ ⟨he0, he1⟩
    · intro x hx
      dsimp only at hx
      rw [Option.some.injEq] at hx
      exact hx ▸ ⟨hk0, hk1⟩
    · intro _
      exact ⟨rfl, rfl, rfl, by dsimp only; exact optCosChannel_isSome _ _,
        by dsimp only; exact optCosChannel_isSome _ _⟩

/-- Claim C6, witness: the amended statement instantiated on the key-only
pair, whose channels are all present (`mfcc = chroma = 0`, `tempo = 1`,
`energy = 0.5`, `key = 1`, `overall = 0.375`). -/
theorem c6_witness :
    mismatchExc fpCmajor fpCmajor = false ∧
    (0 ≤ (calcDetailedSimilarity fpCmajor fpCmajor).overall ∧
      (calcDetailedSimilarity fpCmajor fpCmajor).overall ≤ 1) ∧
    ((calcDetailedSimilarity fpCmajor fpCmajor).tempo.isSome = true ∧
     (calcDetailedSimilarity fpCmajor fpCmajor).energy.isSome = true ∧
     (calcDetailedSimilarity fpCmajor fpCmajor).key.isSome = true) := by
  have h := c6_main fpCmajor fpCmajor
  have h2 := h.2.2.2.2.2.2 (by decide)
  exact ⟨by decide, h.1, h2.1, h2.2.1, h2.2.2.1⟩

-- ===== C8: key estimation on degenerate input =====

lemma zeroChroma_sum : (zeroChroma.map rowMean).sum = 0 := by
  simp [zeroChroma, rowMean]

lemma stepKey_none (acc : ℝ × String) (i : ℕ) : stepKey none acc i = acc := by
  simp [stepKey, pearsonPV, pvGt]

lemma foldl_stepKey_none (l : List ℕ) (acc : ℝ × String) :
    List.foldl (stepKey none) acc l = acc := by
  induction l generalizing acc with
  | nil => rfl
  | cons a l ih => rw [List.foldl_cons, stepKey_none]; exact ih acc

/-- Key estimation on a chromagram whose time-averaged vector sums to zero:
the normalised chroma is all-NaN, every profile correlation is NaN, no NaN
comparison beats `max_corr = -1`, and the initial `'C'` is returned. -/
lemma estimateKey_zero_sum (chroma : List (List ℚ)) (h12 : chroma.length = 12)
    (hsum : (chroma.map rowMean).sum = 0) : estimateKey chroma = "C" := by
  have hn : normChroma chroma = none := by simp [normChroma, hsum]
  unfold estimateKey
  rw [if_neg (by simp [h12]), hn, foldl_stepKey_none]

/-- Claim C8, counterexample.  On the all-zero chromagram `estimate_key`
returns `"C"`, not `"Unknown"`: the NaN correlations never update the
running best, and NaN arithmetic raises no exception (warnings are
suppressed module-wide), so the except-branch that would return "Unknown"
is not taken. -/
theorem c8_counterexample :
    estimateKey zeroChroma = "C" ∧ estimateKey zeroChroma ≠ "Unknown" := by
  have h := estimateKey_zero_sum zeroChroma (by decide) zeroChroma_sum
  exact ⟨h, by rw [h]; decide⟩

/-- Claim C8, amended.  On degenerate input — a 12-row chromagram whose
time-averaged vector has zero sum, hence NaN profile correlations — the
function returns the initial default `"C"`; `"Unknown"` is produced only
when the computation actually raises (a chromagram with a row count other
than 12). -/
theorem c8_main (chroma : List (List ℚ)) (h12 : chroma.length = 12)
    (hsum : (chroma.map rowMean).sum = 0) : estimateKey chroma = "C" :=
  estimateKey_zero_sum chroma h12 hsum

/-- Claim C8, witness: the amended statement on the all-zero chromagram. -/
theorem c8_witness :
    zeroChroma.length = 12 ∧ (zeroChroma.map rowMean).sum = 0 ∧
    estimateKey zeroChroma = "C" :=
  ⟨by decide, zeroChroma_sum, c8_main zeroChroma (by decide) zeroChroma_sum⟩
